import Mathlib

/-!
Shallow embedding of the identity-verification-service core
(document validation, face match / liveness scoring, and the
verification orchestrator) together with theorems checking the
natural-language specification against the code.

Sources embedded:
- src/src/verification/services/document-verification.service.ts
- the FaceVerificationService (src/src/verification/services)
- the VerificationService orchestrator (src/src/verification)

Numbers are modelled as rationals; JavaScript truthiness of a numeric
field is `present and nonzero`, of a string field `present and
nonempty`.  `Date` parsing is abstracted by an oracle
`parseDate : String → Option Int` (milliseconds), and `new Date()`
by a parameter `now : Int`; an unparseable date (`NaN`) makes every
`<` comparison false, which the `Option` encoding reproduces.
-/

namespace IdentityVerification

/-- ExceptionClass models the NestJS exception classes available to the
service code.  The service only ever constructs `BadRequestException`;
`notFoundException` is listed because the spec postulates a distinct
not-found error kind. -/
inductive ExceptionClass where
  | badRequestException
  | notFoundException
deriving DecidableEq, Repr

deriving instance DecidableEq for Except

/-- VError models a thrown exception: its class and its `.message`. -/
structure VError where
  cls : ExceptionClass
  message : String
deriving DecidableEq, Repr

/-! ## Document verification service -/

/-- DocumentType models the `DocumentType` enum of
`verification.entity.ts` (passport, drivers_license, id_card), plus
`unknownType` standing for any runtime value outside the enum, which the
service code handles through the `default` branches of its switches. -/
inductive DocumentType where
  | passport
  | driversLicense
  | idCard
  | unknownType
deriving DecidableEq, Repr

/-- RawField models one entry of `IdentityDocumentFields` in the
Textract response.  The code only reads `field.Type?.Text`,
`field.ValueDetection?.Text` and `field.ValueDetection?.Confidence`;
the two optional-chaining levels are flattened into one `Option` each,
which preserves every access the code makes. -/
structure RawField where
  typeText : Option String
  valueText : Option String
  valueConfidence : Option Rat
deriving DecidableEq, Repr

/-- AwsDocument models the single `IdentityDocuments[0]` element used by
the service: just its (possibly absent) field list. -/
structure AwsDocument where
  identityDocumentFields : Option (List RawField)
deriving DecidableEq, Repr

/-- lowerChar models JavaScript `toLowerCase` on one character
(ASCII; the field names involved are ASCII). -/
def lowerChar (c : Char) : Char :=
  if 65 ≤ c.toNat ∧ c.toNat ≤ 90 then Char.ofNat (c.toNat + 32) else c

/-- lowerString models JavaScript `String.prototype.toLowerCase` for
ASCII strings. -/
def lowerString (s : String) : String := String.mk (s.data.map lowerChar)

/-- DocField is one normalized entry of `documentData`:
`{value, confidence}` as built by `parseDocumentFields`. -/
structure DocField where
  value : String
  confidence : Option Rat
deriving DecidableEq, Repr

/-- DocData models the string-keyed object built by
`parseDocumentFields`: an association list where a later assignment to
the same key overwrites the earlier one. -/
abbrev DocData := List (String × DocField)

/-- setKey models `obj[k] = v` on a JavaScript object: replace the
binding if the key exists, otherwise append it. -/
def setKey : DocData → String → DocField → DocData
  | [], k, v => [(k, v)]
  | (k', v') :: rest, k, v =>
      if k' = k then (k, v) :: rest else (k', v') :: setKey rest k v

/-- getKey models `obj[k]` on a JavaScript object (`Option` for
`undefined`). -/
def getKey (d : DocData) (k : String) : Option DocField :=
  (d.find? (fun p => p.1 = k)).map (fun p => p.2)

/-- parseDocumentFields mirrors
`DocumentVerificationService.parseDocumentFields`: for each raw field
with a truthy `Type.Text` and a truthy `ValueDetection.Text`, store
`{value, confidence}` under the lower-cased type text. -/
def parseDocumentFields (doc : AwsDocument) : DocData :=
  (doc.identityDocumentFields.getD []).foldl
    (fun acc f =>
      match f.typeText, f.valueText with
      | some t, some v =>
          if t ≠ "" ∧ v ≠ "" then
            setKey acc (lowerString t) ⟨v, f.valueConfidence⟩
          else acc
      | _, _ => acc)
    []

/-- calculateConfidenceScore mirrors
`DocumentVerificationService.calculateConfidenceScore`: average of the
truthy (present and nonzero) `ValueDetection.Confidence` values over
all raw fields, `0` if there is none. -/
def calculateConfidenceScore (doc : AwsDocument) : Rat :=
  let acc := (doc.identityDocumentFields.getD []).foldl
    (fun (p : Rat × Nat) f =>
      match f.valueConfidence with
      | some c => if c ≠ 0 then (p.1 + c, p.2 + 1) else p
      | none => p)
    (0, 0)
  if acc.2 > 0 then acc.1 / (acc.2 : Rat) else 0

/-- getRequiredFields mirrors
`DocumentVerificationService.getRequiredFields`.  Note that
`EXPIRATION_DATE` appears in each per-type list, not in the common
list, so the `default` branch (unknown types) does not require it. -/
def getRequiredFields (documentType : DocumentType) : List String :=
  let commonFields := ["FIRST_NAME", "LAST_NAME", "DATE_OF_BIRTH"]
  match documentType with
  | .passport => commonFields ++ ["PASSPORT_NUMBER", "EXPIRATION_DATE", "NATIONALITY"]
  | .driversLicense => commonFields ++ ["LICENSE_NUMBER", "EXPIRATION_DATE", "STATE"]
  | .idCard => commonFields ++ ["ID_NUMBER", "EXPIRATION_DATE"]
  | .unknownType => commonFields

/-- ValidationResult models the `{isValid, reason?}` objects returned by
the private validators. -/
structure ValidationResult where
  isValid : Bool
  reason : Option String
deriving DecidableEq, Repr

/-- isPassportNumberFormat decides the regular expression
`^[A-Z0-9]{6,9}$` used by `validatePassport`. -/
def isPassportNumberFormat (s : String) : Bool :=
  6 ≤ s.length ∧ s.length ≤ 9 ∧
    s.toList.all (fun c => (Char.ofNat 65 ≤ c ∧ c ≤ Char.ofNat 90) ∨
      (Char.ofNat 48 ≤ c ∧ c ≤ Char.ofNat 57))

/-- validatePassport mirrors
`DocumentVerificationService.validatePassport`. -/
def validatePassport (data : DocData) : ValidationResult :=
  match getKey data "passport_number" with
  | some f =>
      if f.value ≠ "" ∧ isPassportNumberFormat f.value then ⟨true, none⟩
      else ⟨false, some "Invalid passport number format"⟩
  | none => ⟨false, some "Invalid passport number format"⟩

/-- validateDriversLicense mirrors
`DocumentVerificationService.validateDriversLicense`. -/
def validateDriversLicense (data : DocData) : ValidationResult :=
  match getKey data "license_number" with
  | some f =>
      if f.value ≠ "" ∧ 5 ≤ f.value.length then ⟨true, none⟩
      else ⟨false, some "Invalid license number format"⟩
  | none => ⟨false, some "Invalid license number format"⟩

/-- validateIdCard mirrors `DocumentVerificationService.validateIdCard`. -/
def validateIdCard (data : DocData) : ValidationResult :=
  match getKey data "id_number" with
  | some f =>
      if f.value ≠ "" ∧ 5 ≤ f.value.length then ⟨true, none⟩
      else ⟨false, some "Invalid ID number format"⟩
  | none => ⟨false, some "Invalid ID number format"⟩

/-- validateDocumentAuthenticity mirrors
`DocumentVerificationService.validateDocumentAuthenticity`.
`parseDate` abstracts JavaScript `new Date(string)` (`none` for an
invalid date, whose comparisons are all false) and `now` abstracts
`new Date()`.  The surrounding try/catch of the source is dropped: no
statement in the body can throw. -/
def validateDocumentAuthenticity (parseDate : String → Option Int) (now : Int)
    (documentType : DocumentType) (extractedData : DocData) : ValidationResult :=
  let requiredFields := getRequiredFields documentType
  let missingFields := requiredFields.filter
    (fun field =>
      match getKey extractedData (lowerString field) with
      | some f => f.value = ""
      | none => true)
  if missingFields ≠ [] then
    ⟨false, some ("Missing required fields: " ++ String.intercalate ", " missingFields)⟩
  else
    let expired :=
      match getKey extractedData "expiration_date" with
      | some f =>
          if f.value ≠ "" then
            match parseDate f.value with
            | some t => decide (t < now)
            | none => false
          else false
      | none => false
    if expired then ⟨false, some "Document has expired"⟩
    else
      match documentType with
      | .passport => validatePassport extractedData
      | .driversLicense => validateDriversLicense extractedData
      | .idCard => validateIdCard extractedData
      | .unknownType => ⟨true, none⟩

/-! ## Face verification service -/

/-- Quality models the Rekognition `Quality` attribute (fields used:
`Brightness`, `Sharpness`). -/
structure Quality where
  brightness : Option Rat
  sharpness : Option Rat
deriving DecidableEq, Repr

/-- Pose models the Rekognition `Pose` attribute. -/
structure Pose where
  pitch : Option Rat
  roll : Option Rat
  yaw : Option Rat
deriving DecidableEq, Repr

/-- BoolAttr models Rekognition boolean attributes such as `EyesOpen`
and `Sunglasses` (`{Value?, Confidence?}`). -/
structure BoolAttr where
  value : Option Bool
  confidence : Option Rat
deriving DecidableEq, Repr

/-- FaceDetail models the Rekognition `FaceDetail` structure, restricted
to the attributes the service reads. -/
structure FaceDetail where
  eyesOpen : Option BoolAttr
  mouthOpen : Option BoolAttr
  eyeglasses : Option BoolAttr
  sunglasses : Option BoolAttr
  beard : Option BoolAttr
  quality : Option Quality
  pose : Option Pose
deriving DecidableEq, Repr

/-- emptyFaceDetail is a `FaceDetail` with every attribute absent. -/
def emptyFaceDetail : FaceDetail := ⟨none, none, none, none, none, none, none⟩

/-- isQualityAcceptable mirrors
`FaceVerificationService.isQualityAcceptable`: false when `Quality` is
absent, else `(Brightness || 0) >= 50 && (Sharpness || 0) >= 50`. -/
def isQualityAcceptable (faceDetails : FaceDetail) : Bool :=
  match faceDetails.quality with
  | none => false
  | some q => 50 ≤ q.brightness.getD 0 ∧ 50 ≤ q.sharpness.getD 0

/-- isPoseAcceptable mirrors `FaceVerificationService.isPoseAcceptable`:
false when `Pose` is absent, else every angle (defaulted to 0) has
absolute value at most 20. -/
def isPoseAcceptable (faceDetails : FaceDetail) : Bool :=
  match faceDetails.pose with
  | none => false
  | some p =>
      |p.pitch.getD 0| ≤ 20 ∧ |p.roll.getD 0| ≤ 20 ∧ |p.yaw.getD 0| ≤ 20

/-- calculateLivenessScore mirrors
`FaceVerificationService.calculateLivenessScore`: an accumulator over
five candidate signals (truthy eyes-open confidence, truthy brightness,
truthy sharpness, 100 for an acceptable pose, 100 for sunglasses
explicitly detected as absent), divided by the number of contributing
signals, `0` if none contributes. -/
def calculateLivenessScore (faceDetails : FaceDetail) : Rat :=
  let acc0 : Rat × Nat := (0, 0)
  let acc1 : Rat × Nat :=
    match faceDetails.eyesOpen with
    | some a =>
        match a.confidence with
        | some c => if c ≠ 0 then (acc0.1 + c, acc0.2 + 1) else acc0
        | none => acc0
    | none => acc0
  let acc2 : Rat × Nat :=
    match faceDetails.quality with
    | some q =>
        match q.brightness with
        | some b => if b ≠ 0 then (acc1.1 + b, acc1.2 + 1) else acc1
        | none => acc1
    | none => acc1
  let acc3 : Rat × Nat :=
    match faceDetails.quality with
    | some q =>
        match q.sharpness with
        | some s => if s ≠ 0 then (acc2.1 + s, acc2.2 + 1) else acc2
        | none => acc2
    | none => acc2
  let acc4 : Rat × Nat := if isPoseAcceptable faceDetails then (acc3.1 + 100, acc3.2 + 1) else acc3
  let acc5 : Rat × Nat :=
    match faceDetails.sunglasses with
    | some a => if a.value = some false then (acc4.1 + 100, acc4.2 + 1) else acc4
    | none => acc4
  if acc5.2 > 0 then acc5.1 / (acc5.2 : Rat) else 0

/-- DetectFacesResponse models the Rekognition `DetectFaces` response
(field used: `FaceDetails`). -/
structure DetectFacesResponse where
  faceDetails : Option (List FaceDetail)
deriving DecidableEq, Repr

/-- QualityCheck models the `{isValid, reason?}` result of
`detectFaceQuality`. -/
structure QualityCheck where
  isValid : Bool
  reason : Option String
deriving DecidableEq, Repr

/-- detectFaceQuality mirrors
`FaceVerificationService.detectFaceQuality`, with the Rekognition call
abstracted as its outcome: either a thrown error (caught and turned
into an invalid result carrying the error message) or a response. -/
def detectFaceQuality (resp : Except VError DetectFacesResponse) : QualityCheck :=
  match resp with
  | .error e => ⟨false, some e.message⟩
  | .ok r =>
      match r.faceDetails with
      | none => ⟨false, some "No face detected in the image"⟩
      | some [] => ⟨false, some "No face detected in the image"⟩
      | some [f] =>
          if ¬isQualityAcceptable f then ⟨false, some "Image quality is too low"⟩
          else if ¬isPoseAcceptable f then ⟨false, some "Face pose is not acceptable"⟩
          else ⟨true, none⟩
      | some (_ :: _ :: _) => ⟨false, some "Multiple faces detected in the image"⟩

/-- BoundingBox models a Rekognition bounding box. -/
structure BoundingBox where
  width : Rat
  height : Rat
  left : Rat
  top : Rat
deriving DecidableEq, Repr

/-- Landmark models one Rekognition face landmark. -/
structure Landmark where
  kind : String
  x : Rat
  y : Rat
deriving DecidableEq, Repr

/-- AwsFace models the `Face` payload of a Rekognition face match,
restricted to the components the service copies into its result. -/
structure AwsFace where
  boundingBox : Option BoundingBox
  landmarks : Option (List Landmark)
  quality : Option Quality
  pose : Option Pose
deriving DecidableEq, Repr

/-- FaceMatch models one element of `CompareFaces.FaceMatches`. -/
structure FaceMatch where
  similarity : Option Rat
  face : Option AwsFace
deriving DecidableEq, Repr

/-- CompareFacesResponse models the Rekognition `CompareFaces` response
(fields used: `FaceMatches`, `UnmatchedFaces`; the unmatched faces are
only counted, so they are modelled as units). -/
structure CompareFacesResponse where
  faceMatches : Option (List FaceMatch)
  unmatchedFaces : Option (List Unit)
deriving DecidableEq, Repr

/-- MatchDetails models the `details` object of a `verifyFaceMatch`
result: either the no-match diagnostic or the best match's payload. -/
inductive MatchDetails where
  | noMatches (reason : String) (unmatched : Nat)
  | matched (boundingBox : Option BoundingBox) (landmarks : Option (List Landmark))
      (quality : Option Quality) (pose : Option Pose)
deriving DecidableEq, Repr

/-- MatchOutcome models the `{isMatch, confidence, details}` value
returned by `verifyFaceMatch`. -/
structure MatchOutcome where
  isMatch : Bool
  confidence : Rat
  details : MatchDetails
deriving DecidableEq, Repr

/-- similarityThreshold is the service's `SIMILARITY_THRESHOLD`
constant (90.0). -/
def similarityThreshold : Rat := 90

/-- qualityThreshold is the service's `QUALITY_THRESHOLD` constant
(80.0). -/
def qualityThreshold : Rat := 80

/-- verifyFaceMatch mirrors `FaceVerificationService.verifyFaceMatch`,
with the three Rekognition calls abstracted as their outcomes
(quality-check responses for the document face and the selfie, and the
comparison response).  A `BadRequestException` thrown inside the try
block is re-wrapped by the catch into a `BadRequestException` with the
same message. -/
def verifyFaceMatch (docResp selfieResp : Except VError DetectFacesResponse)
    (cmpResp : Except VError CompareFacesResponse) : Except VError MatchOutcome :=
  let documentFaceQuality := detectFaceQuality docResp
  let selfieFaceQuality := detectFaceQuality selfieResp
  if ¬documentFaceQuality.isValid then
    .error ⟨.badRequestException,
      "Document face image issue: " ++ documentFaceQuality.reason.getD "undefined"⟩
  else if ¬selfieFaceQuality.isValid then
    .error ⟨.badRequestException,
      "Selfie image issue: " ++ selfieFaceQuality.reason.getD "undefined"⟩
  else
    match cmpResp with
    | .error e => .error ⟨.badRequestException, e.message⟩
    | .ok comparison =>
        match comparison.faceMatches with
        | none =>
            .ok ⟨false, 0, .noMatches "No matching faces found"
              ((comparison.unmatchedFaces.map List.length).getD 0)⟩
        | some [] =>
            .ok ⟨false, 0, .noMatches "No matching faces found"
              ((comparison.unmatchedFaces.map List.length).getD 0)⟩
        | some (bestMatch :: _) =>
            let confidence := bestMatch.similarity.getD 0
            .ok ⟨confidence ≥ similarityThreshold, confidence,
              .matched (bestMatch.face.bind (fun f => f.boundingBox))
                (bestMatch.face.bind (fun f => f.landmarks))
                (bestMatch.face.bind (fun f => f.quality))
                (bestMatch.face.bind (fun f => f.pose))⟩

/-- LivenessDetails models the `details` object returned by
`detectLiveness`: the raw attributes of the single detected face. -/
structure LivenessDetails where
  eyesOpen : Option BoolAttr
  mouthOpen : Option BoolAttr
  eyeglasses : Option BoolAttr
  sunglasses : Option BoolAttr
  beard : Option BoolAttr
  quality : Option Quality
  pose : Option Pose
deriving DecidableEq, Repr

/-- LivenessOutcome models the `{isLive, confidence, details}` value
returned by `detectLiveness`. -/
structure LivenessOutcome where
  isLive : Bool
  confidence : Rat
  details : LivenessDetails
deriving DecidableEq, Repr

/-- detectLiveness mirrors `FaceVerificationService.detectLiveness`,
the Rekognition call abstracted as its outcome.  Errors thrown inside
the try block are re-wrapped by the catch with the same message. -/
def detectLiveness (resp : Except VError DetectFacesResponse) :
    Except VError LivenessOutcome :=
  match resp with
  | .error e => .error ⟨.badRequestException, e.message⟩
  | .ok r =>
      match r.faceDetails with
      | none => .error ⟨.badRequestException, "No face detected in the image"⟩
      | some [] => .error ⟨.badRequestException, "No face detected in the image"⟩
      | some [f] =>
          let livenessScore := calculateLivenessScore f
          .ok ⟨livenessScore ≥ qualityThreshold, livenessScore,
            ⟨f.eyesOpen, f.mouthOpen, f.eyeglasses, f.sunglasses, f.beard,
              f.quality, f.pose⟩⟩
      | some (_ :: _ :: _) =>
          .error ⟨.badRequestException, "Multiple faces detected in the image"⟩

/-! ## Verification orchestrator -/

/-- VerificationStatus models the `VerificationStatus` enum. -/
inductive VerificationStatus where
  | pending
  | inProgress
  | completed
  | failed
deriving DecidableEq, Repr

/-- Verification models the `Verification` entity, restricted to the
fields the orchestrator reads or writes. -/
structure Verification where
  id : String
  userId : String
  documentType : DocumentType
  status : VerificationStatus
  documentData : Option DocData
  confidenceScore : Option Rat
  faceMatchResult : Option MatchOutcome
  failureReason : Option String
deriving DecidableEq, Repr

/-- DocStepResult models the `{isValid, extractedData, confidenceScore}`
value returned by `DocumentVerificationService.verifyDocument`. -/
structure DocStepResult where
  isValid : Bool
  extractedData : DocData
  confidenceScore : Rat
deriving DecidableEq, Repr

/-- StartRun records one execution of
`VerificationService.startVerification`: the final in-memory record,
every snapshot passed to `repository.save` in order, and the returned
record or thrown error. -/
structure StartRun where
  record : Verification
  saves : List Verification
  result : Except VError Verification
deriving DecidableEq, Repr

/-- startVerification mirrors `VerificationService.startVerification`,
with the document step abstracted as its outcome `docResult` and the
repository-generated id as `newId`.  The record is created with status
`in_progress` and saved; a failure inside the try block is caught, the
record is marked failed with the error's message, saved, and the error
re-thrown. -/
def startVerification (newId userId : String) (documentType : DocumentType)
    (docResult : Except VError DocStepResult) : StartRun :=
  let v0 : Verification :=
    ⟨newId, userId, documentType, .inProgress, none, none, none, none⟩
  match docResult with
  | .error e =>
      let v1 := { v0 with status := .failed, failureReason := some e.message }
      ⟨v1, [v0, v1], .error e⟩
  | .ok documentResult =>
      let v1 := { v0 with
        documentData := some documentResult.extractedData,
        confidenceScore := some documentResult.confidenceScore }
      if ¬documentResult.isValid then
        let v2 := { v1 with status := .failed, failureReason := some "Document verification failed" }
        ⟨v2, [v0, v2, v2], .error ⟨.badRequestException, "Document verification failed"⟩⟩
      else
        ⟨v1, [v0, v1], .ok v1⟩

/-- FaceRun records one execution of the body of
`VerificationService.verifyFace` after the record lookup succeeded:
the final in-memory record, the snapshots passed to `repository.save`
in order, the returned record or thrown error, and whether
`faceVerificationService.verifyFaceMatch` was invoked. -/
structure FaceRun where
  record : Verification
  saves : List Verification
  result : Except VError Verification
  faceMatchCalled : Bool
deriving DecidableEq, Repr

/-- verifyFaceOnRecord mirrors the try/catch body of
`VerificationService.verifyFace` on an already-found record `v`, with
the two face-service calls abstracted as their outcomes (`liveness` for
`detectLiveness`, `femMatch` for `verifyFaceMatch`).  A failure thrown
inside the try block (including the service's own `BadRequestException`
throws) is caught, the record is marked failed with the error's
message, saved, and the error re-thrown. -/
def verifyFaceOnRecord (v : Verification)
    (liveness : Except VError LivenessOutcome)
    (femMatch : Except VError MatchOutcome) : FaceRun :=
  match liveness with
  | .error e =>
      let v1 := { v with status := .failed, failureReason := some e.message }
      ⟨v1, [v1], .error e, false⟩
  | .ok livenessResult =>
      if ¬livenessResult.isLive then
        let v1 := { v with status := .failed, failureReason := some "Liveness check failed" }
        ⟨v1, [v1, v1], .error ⟨.badRequestException, "Liveness check failed"⟩, false⟩
      else
        match femMatch with
        | .error e =>
            let v1 := { v with status := .failed, failureReason := some e.message }
            ⟨v1, [v1], .error e, true⟩
        | .ok faceMatchResult =>
            let v1 := { v with faceMatchResult := some faceMatchResult }
            if ¬faceMatchResult.isMatch then
              let v2 := { v1 with status := .failed, failureReason := some "Face match failed" }
              ⟨v2, [v2, v2], .error ⟨.badRequestException, "Face match failed"⟩, true⟩
            else
              let v2 := { v1 with status := .completed }
              ⟨v2, [v2], .ok v2, true⟩

/-- Store models the backing record store keyed by id. -/
abbrev Store := List Verification

/-- findOne models `repository.findOne({where: {id}})`. -/
def findOne (s : Store) (id : String) : Option Verification :=
  s.find? (fun v => v.id = id)

/-- saveRecord models `repository.save`: upsert by id (replace the
first record with the same id, else append). -/
def saveRecord : Store → Verification → Store
  | [], v => [v]
  | w :: ws, v => if w.id = v.id then v :: ws else w :: saveRecord ws v

/-- saveAll persists a list of snapshots in order. -/
def saveAll (s : Store) (vs : List Verification) : Store :=
  vs.foldl saveRecord s

/-- OpResult is the store after an operation together with the
operation's returned record or thrown error. -/
structure OpResult where
  store : Store
  result : Except VError Verification
deriving DecidableEq, Repr

/-- startVerificationOp runs `startVerification` against a store. -/
def startVerificationOp (s : Store) (newId userId : String)
    (documentType : DocumentType) (docResult : Except VError DocStepResult) :
    OpResult :=
  let run := startVerification newId userId documentType docResult
  ⟨saveAll s run.saves, run.result⟩

/-- FaceOpResult additionally records whether `verifyFaceMatch` was
invoked during the operation. -/
structure FaceOpResult where
  store : Store
  result : Except VError Verification
  faceMatchCalled : Bool
deriving DecidableEq, Repr

/-- verifyFaceOp mirrors `VerificationService.verifyFace` against a
store: the record is looked up, an absent id throws
`BadRequestException` with message "Verification not found", otherwise
the try/catch body runs and its saves are applied. -/
def verifyFaceOp (s : Store) (verificationId : String)
    (liveness : Except VError LivenessOutcome)
    (femMatch : Except VError MatchOutcome) : FaceOpResult :=
  match findOne s verificationId with
  | none => ⟨s, .error ⟨.badRequestException, "Verification not found"⟩, false⟩
  | some v =>
      let run := verifyFaceOnRecord v liveness femMatch
      ⟨saveAll s run.saves, run.result, run.faceMatchCalled⟩

/-- getVerificationStatus mirrors
`VerificationService.getVerificationStatus`: a pure read that throws
`BadRequestException` "Verification not found" on an absent id and
performs no save. -/
def getVerificationStatus (s : Store) (verificationId : String) : OpResult :=
  match findOne s verificationId with
  | none => ⟨s, .error ⟨.badRequestException, "Verification not found"⟩⟩
  | some v => ⟨s, .ok v⟩

/-- Op is one invocation of a core operation, with the collaborator
outcomes it consumes. -/
inductive Op where
  | start (newId userId : String) (documentType : DocumentType)
      (docResult : Except VError DocStepResult)
  | face (verificationId : String) (liveness : Except VError LivenessOutcome)
      (femMatch : Except VError MatchOutcome)
  | status (verificationId : String)
deriving DecidableEq, Repr

/-- applyOp is the store transition of one operation. -/
def applyOp (s : Store) : Op → Store
  | .start newId userId documentType docResult =>
      (startVerificationOp s newId userId documentType docResult).store
  | .face verificationId liveness femMatch =>
      (verifyFaceOp s verificationId liveness femMatch).store
  | .status verificationId => (getVerificationStatus s verificationId).store

/-- applyOps folds a sequence of operations over a store. -/
def applyOps (s : Store) : List Op → Store
  | [] => s
  | op :: ops => applyOps (applyOp s op) ops

/-- freshStarts holds when every `start` operation in the sequence is
executed with a repository-generated id that is not already in the
store at that moment (the database generates unique primary keys). -/
def freshStarts (s : Store) : List Op → Prop
  | [] => True
  | op :: ops =>
      (match op with
       | .start newId _ _ _ => findOne s newId = none
       | _ => True) ∧ freshStarts (applyOp s op) ops

/-- terminalStatus means `completed` or `failed`. -/
def terminalStatus (st : VerificationStatus) : Prop :=
  st = .completed ∨ st = .failed

instance : DecidablePred terminalStatus := fun st => by
  unfold terminalStatus; infer_instance

/-! ## Spec-side definitions

Definitions in this section follow the specification's words (not the
code); the theorems below compare them with the embedded code. -/

/-- meanOrZero is the arithmetic mean of a list of rationals, `0` for
the empty list. -/
def meanOrZero (l : List Rat) : Rat :=
  if l = [] then 0 else l.sum / (l.length : Rat)

/-- truthyRawConfidences collects, in order, the confidences of the raw
analyzer fields whose `ValueDetection.Confidence` is present and
nonzero (JavaScript-truthy). -/
def truthyRawConfidences (l : List RawField) : List Rat :=
  l.filterMap
    (fun f =>
      match f.valueConfidence with
      | some c => if c ≠ 0 then some c else none
      | none => none)

/-- extractedConfidences follows the claim's words for the confidence
score: the confidences of exactly the fields placed into
`documentData` by `parseDocumentFields` (an absent confidence reads as
0). -/
def extractedConfidences (doc : AwsDocument) : List Rat :=
  (parseDocumentFields doc).map (fun p => p.2.confidence.getD 0)

/-- claimConfidenceScore is the confidence score as the claim states
it: the mean of `extractedConfidences`, `0` when no fields are
extracted. -/
def claimConfidenceScore (doc : AwsDocument) : Rat :=
  meanOrZero (extractedConfidences doc)

/-- fieldMissing follows the spec's missing-field test: the field is
missing unless a non-empty value is stored under its lower-cased
name. -/
def fieldMissing (extractedData : DocData) (field : String) : Bool :=
  match getKey extractedData (lowerString field) with
  | some f => f.value = ""
  | none => true

/-- missingFieldCheck is rule (a) of the spec's validation cascade:
fail with all missing required names joined by ", " if any is
missing. -/
def missingFieldCheck (requiredFields : List String) (extractedData : DocData) :
    Option String :=
  let missing := requiredFields.filter (fun f => fieldMissing extractedData f)
  if missing = [] then none
  else some ("Missing required fields: " ++ String.intercalate ", " missing)

/-- expiryCheck is rule (b) of the spec's validation cascade: fail with
"Document has expired" only if the expiration-date field carries a
non-empty value that parses to a time strictly before `now`. -/
def expiryCheck (parseDate : String → Option Int) (now : Int)
    (extractedData : DocData) : Option String :=
  match getKey extractedData "expiration_date" with
  | some f =>
      if f.value ≠ "" then
        match parseDate f.value with
        | some t => if t < now then some "Document has expired" else none
        | none => none
      else none
  | none => none

/-- formatCheck is rule (c) of the spec's validation cascade: a
passport number must match `^[A-Z0-9]{6,9}$`, a drivers-license or
id-card number must be a non-empty string of at least 5 characters,
and unknown document types pass trivially. -/
def formatCheck (documentType : DocumentType) (extractedData : DocData) :
    Option String :=
  match documentType with
  | .passport =>
      match getKey extractedData "passport_number" with
      | some f =>
          if f.value ≠ "" ∧ isPassportNumberFormat f.value then none
          else some "Invalid passport number format"
      | none => some "Invalid passport number format"
  | .driversLicense =>
      match getKey extractedData "license_number" with
      | some f =>
          if f.value ≠ "" ∧ 5 ≤ f.value.length then none
          else some "Invalid license number format"
      | none => some "Invalid license number format"
  | .idCard =>
      match getKey extractedData "id_number" with
      | some f =>
          if f.value ≠ "" ∧ 5 ≤ f.value.length then none
          else some "Invalid ID number format"
      | none => some "Invalid ID number format"
  | .unknownType => none

/-- firstFailure returns the first failing rule's reason
(first failure wins, short-circuit). -/
def firstFailure : List (Option String) → Option String
  | [] => none
  | some r :: _ => some r
  | none :: rest => firstFailure rest

/-- documentRuleCascade is the spec's validation contract: rules (a),
(b), (c) in order, first failure winning, over a given required-field
list per type. -/
def documentRuleCascade (requiredOf : DocumentType → List String)
    (parseDate : String → Option Int) (now : Int)
    (documentType : DocumentType) (extractedData : DocData) : ValidationResult :=
  match firstFailure
      [missingFieldCheck (requiredOf documentType) extractedData,
       expiryCheck parseDate now extractedData,
       formatCheck documentType extractedData] with
  | some r => ⟨false, some r⟩
  | none => ⟨true, none⟩

/-- claimRequiredFields is the required-field list exactly as the claim
words it: the common fields first name, last name, date of birth and
expiration date for every document type, plus the type-specific
additions. -/
def claimRequiredFields (documentType : DocumentType) : List String :=
  let commonFields := ["FIRST_NAME", "LAST_NAME", "DATE_OF_BIRTH", "EXPIRATION_DATE"]
  match documentType with
  | .passport => commonFields ++ ["PASSPORT_NUMBER", "NATIONALITY"]
  | .driversLicense => commonFields ++ ["LICENSE_NUMBER", "STATE"]
  | .idCard => commonFields ++ ["ID_NUMBER"]
  | .unknownType => commonFields

/-- eyesSignal is liveness signal 1: the eyes-open confidence when
present and nonzero. -/
def eyesSignal (eyesOpen : Option BoolAttr) : List Rat :=
  match eyesOpen with
  | some a =>
      match a.confidence with
      | some c => if c ≠ 0 then [c] else []
      | none => []
  | none => []

/-- brightnessSignal is liveness signal 2: the brightness when present
and nonzero. -/
def brightnessSignal (quality : Option Quality) : List Rat :=
  match quality with
  | some q =>
      match q.brightness with
      | some b => if b ≠ 0 then [b] else []
      | none => []
  | none => []

/-- sharpnessSignal is liveness signal 3: the sharpness when present
and nonzero. -/
def sharpnessSignal (quality : Option Quality) : List Rat :=
  match quality with
  | some q =>
      match q.sharpness with
      | some s => if s ≠ 0 then [s] else []
      | none => []
  | none => []

/-- sunglassesSignal is liveness signal 5: 100 when sunglasses are
explicitly detected as absent. -/
def sunglassesSignal (sunglasses : Option BoolAttr) : List Rat :=
  match sunglasses with
  | some a => if a.value = some false then [(100 : Rat)] else []
  | none => []

/-- livenessSignals lists, in order, the contributing liveness signals
of a face: eyes-open confidence, brightness, sharpness, 100 for an
acceptable pose, 100 for sunglasses detected as absent. -/
def livenessSignals (f : FaceDetail) : List Rat :=
  eyesSignal f.eyesOpen ++ brightnessSignal f.quality ++ sharpnessSignal f.quality ++
    (if isPoseAcceptable f then [(100 : Rat)] else []) ++ sunglassesSignal f.sunglasses

/-- maxSimilarity is the highest similarity (defaulting absent values
to 0) among the returned face matches, 0 if none. -/
def maxSimilarity (c : CompareFacesResponse) : Rat :=
  ((c.faceMatches.getD []).map (fun m => m.similarity.getD 0)).foldl max 0

/-! ## Concrete fixtures used by counterexamples and witnesses -/

/-- emptyLivenessDetails is a details payload with every attribute
absent. -/
def emptyLivenessDetails : LivenessDetails := ⟨none, none, none, none, none, none, none⟩

/-- liveOutcome is a passing liveness result. -/
def liveOutcome : LivenessOutcome := ⟨true, 96, emptyLivenessDetails⟩

/-- notLiveOutcome is a failing liveness result. -/
def notLiveOutcome : LivenessOutcome := ⟨false, 40, emptyLivenessDetails⟩

/-- matchedOutcome is a passing face-match result. -/
def matchedOutcome : MatchOutcome := ⟨true, 95, .matched none none none none⟩

/-- vFailedRecord is a record that has already reached `failed`. -/
def vFailedRecord : Verification :=
  ⟨"v1", "user1", .passport, .failed, none, none, none, some "Liveness check failed"⟩

/-- goodQualityResponse is a single-face detection response passing
quality and pose checks. -/
def goodQualityResponse : DetectFacesResponse :=
  ⟨some [{ emptyFaceDetail with
    quality := some ⟨some 90, some 85⟩, pose := some ⟨some 0, some 0, some 0⟩ }]⟩

/-- twoMatchesResponse returns two face matches, the second more
similar than the first. -/
def twoMatchesResponse : CompareFacesResponse :=
  ⟨some [⟨some 50, none⟩, ⟨some 95, none⟩], some []⟩

/-- fiveSignalFace contributes all five liveness signals. -/
def fiveSignalFace : FaceDetail :=
  { emptyFaceDetail with
    eyesOpen := some ⟨some true, some 50⟩,
    sunglasses := some ⟨some false, some 99⟩,
    quality := some ⟨some 100, some 100⟩,
    pose := some ⟨some 0, some 0, some 0⟩ }

/-- mixedRawDocument has one extractable field (confidence 80) and one
field without a type (confidence 40), so `documentData` receives only
the first while the confidence score averages both. -/
def mixedRawDocument : AwsDocument :=
  ⟨some [⟨some "a", some "x", some 80⟩, ⟨none, some "y", some 40⟩]⟩

/-- threeFieldData carries non-empty first name, last name and date of
birth, and no expiration date. -/
def threeFieldData : DocData :=
  [("first_name", ⟨"John", some 99⟩), ("last_name", ⟨"Doe", some 99⟩),
   ("date_of_birth", ⟨"1980-01-01", some 99⟩)]

/-- docFailedStore is the store after a `startVerification` whose
document step threw. -/
def docFailedStore : Store :=
  (startVerificationOp [] "v1" "user1" .passport
    (.error ⟨.badRequestException, "AWS Service Error"⟩)).store

/-- vInProgressRecord is a record still in progress after its document
step. -/
def vInProgressRecord : Verification :=
  ⟨"v2", "user2", .passport, .inProgress, some threeFieldData, some 99, none, none⟩

/-! ## Helper lemmas -/

/-- confidence_foldl computes the confidence-score accumulator as a sum
and count over the truthy confidences. -/
theorem confidence_foldl (l : List RawField) (p : Rat × Nat) :
    l.foldl
      (fun (p : Rat × Nat) f =>
        match f.valueConfidence with
        | some c => if c ≠ 0 then (p.1 + c, p.2 + 1) else p
        | none => p) p
    = (p.1 + (truthyRawConfidences l).sum, p.2 + (truthyRawConfidences l).length) := by
  induction l generalizing p with
  | nil => simp [truthyRawConfidences]
  | cons f rest ih =>
      cases hv : f.valueConfidence with
      | none =>
          have h1 : truthyRawConfidences (f :: rest) = truthyRawConfidences rest := by
            unfold truthyRawConfidences
            simp [List.filterMap_cons, hv]
          rw [h1, List.foldl_cons]
          simpa [hv] using ih p
      | some c =>
          by_cases hc : c = 0
          · have h1 : truthyRawConfidences (f :: rest) = truthyRawConfidences rest := by
              unfold truthyRawConfidences
              simp [List.filterMap_cons, hv, hc]
            rw [h1, List.foldl_cons]
            simpa [hv, hc] using ih p
          · have h1 : truthyRawConfidences (f :: rest) = c :: truthyRawConfidences rest := by
              unfold truthyRawConfidences
              simp [List.filterMap_cons, hv, hc]
            rw [h1, List.foldl_cons, ih]
            simp only [hv, ne_eq, hc, not_false_eq_true, if_true, ite_not, if_neg,
              Prod.mk.injEq, List.sum_cons, List.length_cons]
            refine ⟨by ring, by omega⟩

/-- meanOrZero_of_acc rewrites the final division step through
`meanOrZero`. -/
theorem meanOrZero_of_acc (l : List Rat) :
    (if 0 + l.length > 0 then (0 + l.sum) / ((0 + l.length : Nat) : Rat) else 0)
      = meanOrZero l := by
  cases l with
  | nil => simp [meanOrZero]
  | cons a t => simp [meanOrZero]

/-- firstFailure_single reduces a one-rule cascade. -/
theorem firstFailure_single (o : Option String) : firstFailure [o] = o := by
  cases o <;> rfl

/-- format_eq states that the code's per-type validators agree with the
spec's format-check rule. -/
theorem format_eq (dt : DocumentType) (d : DocData) :
    (match dt with
     | DocumentType.passport => validatePassport d
     | DocumentType.driversLicense => validateDriversLicense d
     | DocumentType.idCard => validateIdCard d
     | DocumentType.unknownType => ⟨true, none⟩) =
    (match formatCheck dt d with
     | some r => (⟨false, some r⟩ : ValidationResult)
     | none => ⟨true, none⟩) := by
  cases dt
  case passport =>
      unfold formatCheck validatePassport
      cases hk : getKey d "passport_number" with
      | none => simp [hk]
      | some f => simp only [hk]; split_ifs <;> rfl
  case driversLicense =>
      unfold formatCheck validateDriversLicense
      cases hk : getKey d "license_number" with
      | none => simp [hk]
      | some f => simp only [hk]; split_ifs <;> rfl
  case idCard =>
      unfold formatCheck validateIdCard
      cases hk : getKey d "id_number" with
      | none => simp [hk]
      | some f => simp only [hk]; split_ifs <;> rfl
  case unknownType => rfl

/-- validate_eq_cascade states that the code's document validation is
exactly the spec's first-failure cascade over the code's required-field
lists. -/
theorem validate_eq_cascade (pd : String → Option Int) (now : Int)
    (dt : DocumentType) (d : DocData) :
    validateDocumentAuthenticity pd now dt d =
      documentRuleCascade getRequiredFields pd now dt d := by
  unfold validateDocumentAuthenticity documentRuleCascade missingFieldCheck
    expiryCheck fieldMissing
  by_cases hm : ((getRequiredFields dt).filter fun field =>
      match getKey d (lowerString field) with
      | some f => decide (f.value = "")
      | none => true) = []
  · rw [if_pos hm, if_neg (by simp [hm])]
    cases hk : getKey d "expiration_date" with
    | none =>
        simp only [hk, firstFailure, firstFailure_single, Bool.false_eq_true, if_false]
        exact format_eq dt d
    | some f =>
        by_cases hv : f.value = ""
        · simp only [hk, hv, ne_eq, not_true_eq_false, if_false, firstFailure,
            firstFailure_single, Bool.false_eq_true]
          exact format_eq dt d
        · cases hp : pd f.value with
          | none =>
              simp only [hk, hv, hp, ne_eq, not_false_eq_true, if_true, firstFailure,
                firstFailure_single, Bool.false_eq_true, if_false]
              exact format_eq dt d
          | some t =>
              by_cases ht : t < now
              · simp [hk, hv, hp, ht, firstFailure]
              · simp only [hk, hv, hp, ht, ne_eq, not_false_eq_true, if_true,
                  decide_eq_true_eq, firstFailure, firstFailure_single, if_false,
                  Bool.false_eq_true]
                exact format_eq dt d
  · simp [hm, firstFailure]

/-! ## Claim theorems -/

/-- C4 (amended): document validation applies, with the first failure
winning, (a) the missing-field check over the code's required list for
the type, reporting all missing names joined by ", " in list order,
then (b) the expiration check, failing only if the expiration-date
field parses and lies strictly before the current time, then (c) the
type-specific format check (passport `^[A-Z0-9]{6,9}$`, license/id
number at least 5 characters, unknown types pass trivially).  For the
three known document types the required list is, up to order, the
claim's common four fields plus the type-specific additions; an
unknown document type, however, requires only first name, last name
and date of birth — its list does not contain the expiration date. -/
theorem claim4_validation_cascade :
    (∀ (parseDate : String → Option Int) (now : Int) (dt : DocumentType) (d : DocData),
        validateDocumentAuthenticity parseDate now dt d =
          documentRuleCascade getRequiredFields parseDate now dt d) ∧
    List.Perm (getRequiredFields .passport) (claimRequiredFields .passport) ∧
    List.Perm (getRequiredFields .driversLicense) (claimRequiredFields .driversLicense) ∧
    List.Perm (getRequiredFields .idCard) (claimRequiredFields .idCard) ∧
    getRequiredFields .unknownType = ["FIRST_NAME", "LAST_NAME", "DATE_OF_BIRTH"] ∧
    (∀ d, formatCheck .unknownType d = none) :=
  ⟨validate_eq_cascade, by decide, by decide, by decide, rfl, fun _ => rfl⟩

/-- C4 counterexample: on an unknown document type whose data has
non-empty first name, last name and date of birth but no expiration
date at all, the code validates the document, while the claim's
required list (which puts the expiration date among the common fields
of every type) would fail the missing-field check with
"Missing required fields: EXPIRATION_DATE". -/
theorem claim4_unknown_type_expiration_not_required :
    validateDocumentAuthenticity (fun _ => none) 0 .unknownType threeFieldData =
      ⟨true, none⟩ ∧
    documentRuleCascade claimRequiredFields (fun _ => none) 0 .unknownType threeFieldData =
      ⟨false, some "Missing required fields: EXPIRATION_DATE"⟩ ∧
    getKey threeFieldData "expiration_date" = none :=
  ⟨by decide, by decide, by decide⟩

/-- C7 (amended): the record's confidence score is the arithmetic mean
of the confidences of all analyzer fields whose
`ValueDetection.Confidence` is present and nonzero — whether or not
the field carries a type name and value and is placed into
`documentData` — and 0 when no such confidence exists. -/
theorem claim7_confidence_mean_truthy_confidences :
    ∀ doc : AwsDocument, calculateConfidenceScore doc =
      meanOrZero (truthyRawConfidences (doc.identityDocumentFields.getD [])) := by
  intro doc
  simp only [calculateConfidenceScore, confidence_foldl]
  exact meanOrZero_of_acc _

/-- C7 counterexample: `mixedRawDocument` has one extractable field
(confidence 80) and one field without a type text (confidence 40);
`documentData` receives only the first, so the claim's mean over the
extracted fields is 80, but the code's confidence score averages both
and yields 60. -/
theorem claim7_confidence_includes_unextracted_fields :
    calculateConfidenceScore mixedRawDocument = 60 ∧
    claimConfidenceScore mixedRawDocument = 80 ∧
    parseDocumentFields mixedRawDocument = [("a", ⟨"x", some 80⟩)] := by
  refine ⟨?_, ?_, by decide⟩
  · norm_num [calculateConfidenceScore, mixedRawDocument]
  · have h1 : lowerString "a" = "a" := by decide
    simp [claimConfidenceScore, extractedConfidences, parseDocumentFields,
      mixedRawDocument, meanOrZero, setKey, h1]

/-- eyesSignal_length bounds signal 1 to at most one contribution. -/
theorem eyesSignal_length (eo : Option BoolAttr) : (eyesSignal eo).length ≤ 1 := by
  unfold eyesSignal
  rcases eo with _ | ⟨v, c⟩
  · simp
  · rcases c with _ | c
    · simp
    · dsimp only
      split <;> simp

/-- brightnessSignal_length bounds signal 2 to at most one
contribution. -/
theorem brightnessSignal_length (q : Option Quality) :
    (brightnessSignal q).length ≤ 1 := by
  unfold brightnessSignal
  rcases q with _ | ⟨b, s⟩
  · simp
  · rcases b with _ | b
    · simp
    · dsimp only
      split <;> simp

/-- sharpnessSignal_length bounds signal 3 to at most one
contribution. -/
theorem sharpnessSignal_length (q : Option Quality) :
    (sharpnessSignal q).length ≤ 1 := by
  unfold sharpnessSignal
  rcases q with _ | ⟨b, s⟩
  · simp
  · rcases s with _ | s
    · simp
    · dsimp only
      split <;> simp

/-- sunglassesSignal_length bounds signal 5 to at most one
contribution. -/
theorem sunglassesSignal_length (sg : Option BoolAttr) :
    (sunglassesSignal sg).length ≤ 1 := by
  unfold sunglassesSignal
  rcases sg with _ | ⟨v, c⟩
  · simp
  · dsimp only
    split <;> simp

set_option maxHeartbeats 1000000

/-- calculateLivenessScore_eq_mean states that the code's accumulator
equals the arithmetic mean of the contributing signals (0 when none
contributes). -/
theorem calculateLivenessScore_eq_mean (f : FaceDetail) :
    calculateLivenessScore f = meanOrZero (livenessSignals f) := by
  rcases f with ⟨eo, mo, eg, sg, bd, q, p⟩
  unfold calculateLivenessScore livenessSignals eyesSignal brightnessSignal
    sharpnessSignal sunglassesSignal
  rcases eo with _ | ⟨ev, ec⟩ <;>
    rcases q with _ | ⟨qb, qs⟩ <;>
    rcases sg with _ | ⟨sv, sc⟩
  all_goals try rcases ec with _ | c
  all_goals try rcases qb with _ | b
  all_goals try rcases qs with _ | s2
  all_goals dsimp only
  all_goals split_ifs <;> simp_all [meanOrZero] <;> ring_nf

set_option maxHeartbeats 200000

/-- livenessSignals_length bounds the number of contributing liveness
signals by five. -/
theorem livenessSignals_length (f : FaceDetail) : (livenessSignals f).length ≤ 5 := by
  unfold livenessSignals
  have h1 := eyesSignal_length f.eyesOpen
  have h2 := brightnessSignal_length f.quality
  have h3 := sharpnessSignal_length f.quality
  have h4 : (if isPoseAcceptable f then [(100 : Rat)] else []).length ≤ 1 := by
    split <;> simp
  have h5 := sunglassesSignal_length f.sunglasses
  simp only [List.length_append]
  omega

/-- C6 (amended): the liveness score is the arithmetic mean of up to
FIVE contributing signals — eyes-open confidence, brightness,
sharpness, 100 for an acceptable pose, 100 for sunglasses explicitly
detected as absent, each counted when present and truthy — 0 when no
signal is available; and `detectLiveness` reports `isLive` exactly
when the score reaches the 80.0 threshold. -/
theorem claim6_liveness_mean_of_five_signals :
    (∀ f : FaceDetail, calculateLivenessScore f = meanOrZero (livenessSignals f)) ∧
    (∀ f : FaceDetail, (livenessSignals f).length ≤ 5) ∧
    (∀ (resp : Except VError DetectFacesResponse) (out : LivenessOutcome),
        detectLiveness resp = .ok out →
        (out.isLive = true ↔ qualityThreshold ≤ out.confidence)) := by
  refine ⟨calculateLivenessScore_eq_mean, livenessSignals_length, ?_⟩
  intro resp out h
  cases resp with
  | error e => simp [detectLiveness] at h
  | ok r =>
      cases hf : r.faceDetails with
      | none => simp [detectLiveness, hf] at h
      | some l =>
          match l with
          | [] => simp [detectLiveness, hf] at h
          | [f] =>
              simp only [detectLiveness, hf] at h
              cases h
              simp [ge_iff_le, decide_eq_true_eq]
          | _ :: _ :: _ => simp [detectLiveness, hf] at h

/-- claim6 witness: on `fiveSignalFace` the score is the mean of its
five signals, the signal count is within five, and the concrete
`detectLiveness` outcome (score 90) is live exactly because 80 ≤ 90. -/
theorem claim6_liveness_mean_of_five_signals_witness :
    (calculateLivenessScore fiveSignalFace = meanOrZero (livenessSignals fiveSignalFace)) ∧
    ((livenessSignals fiveSignalFace).length ≤ 5) ∧
    ((⟨true, 90, ⟨some ⟨some true, some 50⟩, none, none, some ⟨some false, some 99⟩,
        none, some ⟨some 100, some 100⟩, some ⟨some 0, some 0, some 0⟩⟩⟩ :
      LivenessOutcome).isLive = true ↔
      qualityThreshold ≤ (⟨true, 90, ⟨some ⟨some true, some 50⟩, none, none,
        some ⟨some false, some 99⟩, none, some ⟨some 100, some 100⟩,
        some ⟨some 0, some 0, some 0⟩⟩⟩ : LivenessOutcome).confidence) :=
  ⟨claim6_liveness_mean_of_five_signals.1 fiveSignalFace,
   claim6_liveness_mean_of_five_signals.2.1 fiveSignalFace,
   claim6_liveness_mean_of_five_signals.2.2 (.ok ⟨some [fiveSignalFace]⟩) _
     (by
       have h90 : calculateLivenessScore fiveSignalFace = 90 := by
         norm_num [calculateLivenessScore, fiveSignalFace, isPoseAcceptable,
           emptyFaceDetail]
       simp only [detectLiveness, h90, qualityThreshold]
       norm_num [fiveSignalFace, emptyFaceDetail])⟩

/-- C6 counterexample: `fiveSignalFace` contributes all five signals
`[50, 100, 100, 100, 100]` and scores 90, the mean of the FIVE
signals; no selection of at most four of its signals has mean 90, so
the claim's "at most four contributing signals" is false. -/
theorem claim6_five_signals_not_four :
    livenessSignals fiveSignalFace = [50, 100, 100, 100, 100] ∧
    calculateLivenessScore fiveSignalFace = 90 ∧
    ¬∃ sub : List Rat, sub.Sublist (livenessSignals fiveSignalFace) ∧ sub.length ≤ 4 ∧
      meanOrZero sub = 90 := by
  refine ⟨by decide, ?_, ?_⟩
  · norm_num [calculateLivenessScore, fiveSignalFace, isPoseAcceptable, emptyFaceDetail]
  · rintro ⟨sub, hsub, hlen, heq⟩
    rw [show livenessSignals fiveSignalFace = [50, 100, 100, 100, 100] from by decide]
      at hsub
    have hmem : sub ∈ ([50, 100, 100, 100, 100] : List Rat).sublists :=
      List.mem_sublists.mpr hsub
    fin_cases hmem <;> simp_all [meanOrZero] <;> norm_num at heq

/-- C10: a face whose eyes-open attribute carries a nonzero confidence
contributes that confidence as a liveness signal no matter what the
boolean eyes-open verdict is: the signal list gains exactly that
confidence over the same face without the attribute, and replacing the
verdict by any value leaves the score unchanged. -/
theorem claim10_eyes_open_value_ignored :
    ∀ (f : FaceDetail) (a : BoolAttr) (c : Rat),
      f.eyesOpen = some a → a.confidence = some c → c ≠ 0 →
      livenessSignals f = c :: livenessSignals { f with eyesOpen := none } ∧
      (∀ v : Option Bool,
        calculateLivenessScore { f with eyesOpen := some ⟨v, some c⟩ } =
          calculateLivenessScore f) := by
  rintro ⟨eo, mo, eg, sg, bd, q, p⟩ a c heo hc hcne
  dsimp only at heo
  subst heo
  constructor
  · simp [livenessSignals, eyesSignal, isPoseAcceptable, hc, hcne]
  · intro v
    unfold calculateLivenessScore
    simp [isPoseAcceptable, hc, hcne]

/-- claim10 witness: the concrete `fiveSignalFace` (eyes-open
confidence 50) gains the signal 50 and its score does not depend on
the eyes-open verdict. -/
theorem claim10_eyes_open_value_ignored_witness :
    livenessSignals fiveSignalFace =
      50 :: livenessSignals { fiveSignalFace with eyesOpen := none } ∧
    (∀ v : Option Bool,
      calculateLivenessScore { fiveSignalFace with eyesOpen := some ⟨v, some 50⟩ } =
        calculateLivenessScore fiveSignalFace) :=
  claim10_eyes_open_value_ignored fiveSignalFace ⟨some true, some 50⟩ 50 rfl rfl
    (by norm_num)

/-- C5 (amended): when both quality pre-checks pass, a comparison with
zero returned matches yields
`{isMatch:false, confidence:0, details:{reason:"No matching faces
found", unmatched:<count>}}`; otherwise the result is built from the
FIRST match of the analyzer's returned list (not from a recomputed
highest-similarity match): isMatch iff its similarity (defaulted to 0)
reaches 90.0, confidence that similarity, details that match's
bounding box, landmarks, quality and pose. -/
theorem claim5_match_result_from_first_match :
    ∀ (docResp selfieResp : Except VError DetectFacesResponse) (c : CompareFacesResponse),
      (detectFaceQuality docResp).isValid = true →
      (detectFaceQuality selfieResp).isValid = true →
      (c.faceMatches.getD [] = [] →
        verifyFaceMatch docResp selfieResp (.ok c) =
          .ok ⟨false, 0, .noMatches "No matching faces found"
            ((c.unmatchedFaces.map List.length).getD 0)⟩) ∧
      (∀ m rest, c.faceMatches = some (m :: rest) →
        verifyFaceMatch docResp selfieResp (.ok c) =
          .ok ⟨decide (m.similarity.getD 0 ≥ similarityThreshold), m.similarity.getD 0,
            .matched (m.face.bind AwsFace.boundingBox) (m.face.bind AwsFace.landmarks)
              (m.face.bind AwsFace.quality) (m.face.bind AwsFace.pose)⟩) := by
  intro dr sr c h1 h2
  constructor
  · intro hm
    simp only [verifyFaceMatch, h1]
    rw [if_neg (by simp [h1]), if_neg (by simp [h2])]
    cases hfm : c.faceMatches with
    | none => simp
    | some l =>
        cases l with
        | nil => simp
        | cons m rest => simp [hfm] at hm
  · intro m rest hm
    simp only [verifyFaceMatch]
    rw [if_neg (by simp [h1]), if_neg (by simp [h2])]
    simp [hm]

/-- claim5 witness: with both pre-checks passing and a comparison that
returns no matches and two unmatched faces, the result is the no-match
diagnostic with unmatched count 2. -/
theorem claim5_match_result_from_first_match_witness :
    verifyFaceMatch (.ok goodQualityResponse) (.ok goodQualityResponse)
        (.ok ⟨some [], some [(), ()]⟩) =
      .ok ⟨false, 0, .noMatches "No matching faces found" 2⟩ :=
  (claim5_match_result_from_first_match (.ok goodQualityResponse)
      (.ok goodQualityResponse) ⟨some [], some [(), ()]⟩ (by decide) (by decide)).1
    (by decide)

/-- C5 counterexample: with passing pre-checks and a comparison
returning matches `[similarity 50, similarity 95]`, the code builds
the result from the FIRST match: isMatch false with confidence 50.
The claim's highest-similarity reading (95, at or above the 90.0
floor) would demand isMatch true with confidence 95. -/
theorem claim5_first_match_not_highest :
    verifyFaceMatch (.ok goodQualityResponse) (.ok goodQualityResponse)
        (.ok twoMatchesResponse) =
      .ok ⟨false, 50, .matched none none none none⟩ ∧
    maxSimilarity twoMatchesResponse = 95 ∧
    similarityThreshold ≤ 95 ∧ ((50 : Rat) ≠ 95) :=
  ⟨by decide, by decide, by decide, by decide⟩

/-- findOne_cons computes a lookup on a non-empty store. -/
theorem findOne_cons (v : Verification) (l : Store) (id : String) :
    findOne (v :: l) id = if v.id = id then some v else findOne l id := by
  unfold findOne
  rw [List.find?_cons]
  split_ifs with h <;> simp [h]

/-- findOne_saveRecord states that an upsert is observed by lookups at
its id and invisible elsewhere. -/
theorem findOne_saveRecord (s : Store) (w : Verification) (id : String) :
    findOne (saveRecord s w) id = if w.id = id then some w else findOne s id := by
  induction s with
  | nil =>
      unfold saveRecord
      rw [findOne_cons]
  | cons u us ih =>
      unfold saveRecord
      by_cases h : u.id = w.id
      · rw [if_pos h, findOne_cons, findOne_cons]
        split_ifs with h2 h3 <;> simp_all
      · rw [if_neg h, findOne_cons, ih, findOne_cons]
        split_ifs <;> simp_all

/-- findOne_saveAll_ne states that saving records with other ids does
not change a lookup. -/
theorem findOne_saveAll_ne (vs : List Verification) (s : Store) (id : String)
    (h : ∀ w ∈ vs, w.id ≠ id) : findOne (saveAll s vs) id = findOne s id := by
  induction vs generalizing s with
  | nil => rfl
  | cons w rest ih =>
      unfold saveAll
      rw [List.foldl_cons]
      have := ih (saveRecord s w) (fun x hx => h x (List.mem_cons_of_mem _ hx))
      unfold saveAll at this
      rw [this, findOne_saveRecord, if_neg (h w (List.mem_cons_self _ _))]

/-- findOne_saveAll_last states that after saving a non-empty sequence
of snapshots of one id, the lookup returns the last snapshot. -/
theorem findOne_saveAll_last (vs : List Verification) (s : Store) (id : String)
    (hne : vs ≠ []) (h : ∀ w ∈ vs, w.id = id) :
    findOne (saveAll s vs) id = vs.getLast? := by
  induction vs generalizing s with
  | nil => exact absurd rfl hne
  | cons w rest ih =>
      unfold saveAll
      rw [List.foldl_cons]
      cases rest with
      | nil =>
          simp only [List.foldl_nil, List.getLast?_singleton]
          rw [findOne_saveRecord, if_pos (h w (List.mem_cons_self _ _))]
      | cons x xs =>
          have := ih (saveRecord s w) (by simp)
            (fun y hy => h y (List.mem_cons_of_mem _ hy))
          unfold saveAll at this
          rw [this]
          simp [List.getLast?_cons_cons]

/-- getVerificationStatus_store states that a status read never
changes the store. -/
theorem getVerificationStatus_store (s : Store) (id : String) :
    (getVerificationStatus s id).store = s := by
  unfold getVerificationStatus
  cases findOne s id <;> rfl

/-- startVerification_saves_id states that every snapshot saved by a
start operation carries the new record's id. -/
theorem startVerification_saves_id (newId userId : String) (dt : DocumentType)
    (r : Except VError DocStepResult) :
    ∀ w ∈ (startVerification newId userId dt r).saves, w.id = newId := by
  unfold startVerification
  cases r with
  | error e => simp
  | ok dr =>
      by_cases h : dr.isValid <;> simp [h]

/-- verifyFaceOnRecord_saves collects the persistence facts of a face
step: it saves at least once, only under the record's id, ending with
the final record, and every snapshot (and the final record) has a
terminal status. -/
theorem verifyFaceOnRecord_saves (v : Verification)
    (l : Except VError LivenessOutcome) (m : Except VError MatchOutcome) :
    (verifyFaceOnRecord v l m).saves ≠ [] ∧
    (∀ w ∈ (verifyFaceOnRecord v l m).saves, w.id = v.id) ∧
    (verifyFaceOnRecord v l m).saves.getLast? = some (verifyFaceOnRecord v l m).record ∧
    terminalStatus (verifyFaceOnRecord v l m).record.status ∧
    (∀ w ∈ (verifyFaceOnRecord v l m).saves, terminalStatus w.status) := by
  unfold verifyFaceOnRecord
  cases l with
  | error e => simp [terminalStatus]
  | ok lr =>
      by_cases hl : lr.isLive
      · cases m with
        | error e => simp [hl, terminalStatus]
        | ok mr =>
            by_cases hm : mr.isMatch <;> simp [hl, hm, terminalStatus]
      · simp [hl, terminalStatus]

/-- applyOp_preserves_terminal: one operation (with a fresh creation
id) cannot move a record out of a terminal status. -/
theorem applyOp_preserves_terminal (s : Store) (op : Op) (id : String) (v : Verification)
    (hfresh : ∀ n u dt r, op = .start n u dt r → findOne s n = none)
    (hfind : findOne s id = some v) (hterm : terminalStatus v.status) :
    ∃ v', findOne (applyOp s op) id = some v' ∧ terminalStatus v'.status := by
  cases op with
  | status vid =>
      refine ⟨v, ?_, hterm⟩
      simpa [applyOp, getVerificationStatus_store] using hfind
  | start n u dt r =>
      have hn : findOne s n = none := hfresh n u dt r rfl
      have hne : id ≠ n := by
        intro hcontra
        rw [hcontra, hn] at hfind
        exact Option.noConfusion hfind
      refine ⟨v, ?_, hterm⟩
      have h2 : findOne (applyOp s (.start n u dt r)) id = findOne s id := by
        unfold applyOp startVerificationOp
        exact findOne_saveAll_ne _ _ _
          (fun w hw => by
            rw [startVerification_saves_id n u dt r w hw]
            exact fun hc => hne hc.symm)
      rw [h2, hfind]
  | face vid l m =>
      have hred : applyOp s (.face vid l m) = (verifyFaceOp s vid l m).store := rfl
      rw [hred]
      unfold verifyFaceOp
      cases hv : findOne s vid with
      | none => exact ⟨v, hfind, hterm⟩
      | some w =>
          dsimp only
          have hwid : w.id = vid := by
            have := List.find?_some hv
            simpa using this
          obtain ⟨hne, hids, hlast, hrec, hall⟩ := verifyFaceOnRecord_saves w l m
          by_cases hid : vid = id
          · subst hid
            refine ⟨(verifyFaceOnRecord w l m).record, ?_, hrec⟩
            have h2 : findOne (saveAll s (verifyFaceOnRecord w l m).saves) vid =
                (verifyFaceOnRecord w l m).saves.getLast? :=
              findOne_saveAll_last _ _ _ hne (fun x hx => (hids x hx).trans hwid)
            rw [h2, hlast]
          · refine ⟨v, ?_, hterm⟩
            have h2 : findOne (saveAll s (verifyFaceOnRecord w l m).saves) id =
                findOne s id :=
              findOne_saveAll_ne _ _ _
                (fun x hx => by rw [hids x hx, hwid]; exact hid)
            rw [h2, hfind]

/-- C1 (amended): under any sequence of core operations whose record
creations use fresh repository-generated ids, a record that has
reached completed or failed keeps a terminal status forever — it never
returns to pending or in_progress, since every status verifyFace
writes is terminal and a status read mutates nothing.  The claim's
stronger second half is false: verifyFace does not guard on the
current status, so an already-failed or already-completed record is
re-processed and its status can change (see the counterexample). -/
theorem claim1_no_reentry_after_terminal :
    ∀ (ops : List Op) (s : Store) (id : String) (v : Verification),
      freshStarts s ops → findOne s id = some v → terminalStatus v.status →
      ∃ v', findOne (applyOps s ops) id = some v' ∧ terminalStatus v'.status := by
  intro ops
  induction ops with
  | nil => exact fun s id v _ hf ht => ⟨v, hf, ht⟩
  | cons op rest ih =>
      intro s id v hfresh hf ht
      have h1 : ∀ n u dt r, op = .start n u dt r → findOne s n = none := by
        intro n u dt r heq
        subst heq
        exact hfresh.1
      obtain ⟨v', hf', ht'⟩ := applyOp_preserves_terminal s op id v h1 hf ht
      exact ih (applyOp s op) id v' hfresh.2 hf' ht'

/-- claim1 witness: starting from a store holding a failed record, a
face operation leaves it with a terminal status. -/
theorem claim1_no_reentry_after_terminal_witness :
    ∃ v', findOne (applyOps [vFailedRecord]
        [Op.face "v1" (.ok liveOutcome) (.ok matchedOutcome)]) "v1" = some v' ∧
      terminalStatus v'.status :=
  claim1_no_reentry_after_terminal
    [Op.face "v1" (.ok liveOutcome) (.ok matchedOutcome)]
    [vFailedRecord] "v1" vFailedRecord ⟨trivial, trivial⟩ (by decide) (Or.inr rfl)

/-- C1 counterexample: a record already failed is re-processed by
verifyFace without any status guard; with a live liveness result and a
matching comparison its status changes from failed to completed, so "a
record whose status is failed is never transitioned again" is false on
the code. -/
theorem claim1_failed_record_retransitioned :
    vFailedRecord.status = .failed ∧
    (findOne (verifyFaceOp [vFailedRecord] "v1" (.ok liveOutcome)
        (.ok matchedOutcome)).store "v1").map Verification.status =
      some .completed :=
  ⟨rfl, by decide⟩

/-- C2: whenever startVerification's document step or verifyFace's face
step surfaces an error, the orchestrator leaves the record failed with
failureReason equal to that error's message, and the last persisted
snapshot is exactly that record — the persisted failure reason equals
the thrown error's message. -/
theorem claim2_failure_persisted_and_rethrown :
    (∀ (newId userId : String) (dt : DocumentType) (docResult : Except VError DocStepResult)
        (e : VError),
        (startVerification newId userId dt docResult).result = .error e →
        (startVerification newId userId dt docResult).record.status = .failed ∧
        (startVerification newId userId dt docResult).record.failureReason = some e.message ∧
        (startVerification newId userId dt docResult).saves.getLast? =
          some (startVerification newId userId dt docResult).record) ∧
    (∀ (v : Verification) (liveness : Except VError LivenessOutcome)
        (femMatch : Except VError MatchOutcome) (e : VError),
        (verifyFaceOnRecord v liveness femMatch).result = .error e →
        (verifyFaceOnRecord v liveness femMatch).record.status = .failed ∧
        (verifyFaceOnRecord v liveness femMatch).record.failureReason = some e.message ∧
        (verifyFaceOnRecord v liveness femMatch).saves.getLast? =
          some (verifyFaceOnRecord v liveness femMatch).record) := by
  constructor
  · intro newId userId dt r e h
    cases r with
    | error e2 =>
        simp only [startVerification] at h ⊢
        injection h with h2
        subst h2
        simp
    | ok dr =>
        by_cases hv : dr.isValid
        · simp [startVerification, hv] at h
        · simp only [startVerification, hv, Bool.false_eq_true, not_false_eq_true,
            if_true, ite_not, if_neg] at h ⊢
          injection h with h2
          subst h2
          simp [hv]
  · intro v l m e h
    cases l with
    | error e2 =>
        simp only [verifyFaceOnRecord] at h ⊢
        injection h with h2
        subst h2
        simp
    | ok lr =>
        by_cases hl : lr.isLive
        · cases m with
          | error e2 =>
              simp only [verifyFaceOnRecord, hl, if_true] at h ⊢
              injection h with h2
              subst h2
              simp [hl]
          | ok mr =>
              by_cases hm : mr.isMatch
              · simp [verifyFaceOnRecord, hl, hm] at h
              · simp only [verifyFaceOnRecord, hl, hm] at h ⊢
                injection h with h2
                subst h2
                simp [hl, hm]
        · simp only [verifyFaceOnRecord, hl] at h ⊢
          injection h with h2
          subst h2
          simp [hl]

/-- claim2 witness: a document step that throws "AWS Service Error"
leaves the record failed with that failure reason, persisted last. -/
theorem claim2_failure_persisted_and_rethrown_witness :
    (startVerification "v1" "user1" .passport
        (.error ⟨.badRequestException, "AWS Service Error"⟩)).record.status = .failed ∧
    (startVerification "v1" "user1" .passport
        (.error ⟨.badRequestException, "AWS Service Error"⟩)).record.failureReason =
      some (VError.mk .badRequestException "AWS Service Error").message ∧
    (startVerification "v1" "user1" .passport
        (.error ⟨.badRequestException, "AWS Service Error"⟩)).saves.getLast? =
      some (startVerification "v1" "user1" .passport
        (.error ⟨.badRequestException, "AWS Service Error"⟩)).record :=
  claim2_failure_persisted_and_rethrown.1 "v1" "user1" .passport
    (.error ⟨.badRequestException, "AWS Service Error"⟩)
    ⟨.badRequestException, "AWS Service Error"⟩ rfl

/-- C3 (amended): verifyFace stores a faceMatchResult on the looked-up
record exactly when the liveness call returns live and the comparison
call returns a result — with no regard to documentData or the document
step's outcome; a non-null faceMatchResult therefore does not imply
that documentData was populated or validated. -/
theorem claim3_faceMatch_storage_characterization :
    ∀ (v : Verification) (liveness : Except VError LivenessOutcome)
      (femMatch : Except VError MatchOutcome),
      (verifyFaceOnRecord v liveness femMatch).record.faceMatchResult =
        (match liveness, femMatch with
         | .ok l, .ok m => if l.isLive then some m else v.faceMatchResult
         | _, _ => v.faceMatchResult) := by
  intro v l m
  cases l with
  | error e => simp [verifyFaceOnRecord]
  | ok lr =>
      by_cases hl : lr.isLive
      · cases m with
        | error e => simp [verifyFaceOnRecord, hl]
        | ok mr => by_cases hm : mr.isMatch <;> simp [verifyFaceOnRecord, hl, hm]
      · cases m with
        | error e => simp [verifyFaceOnRecord, hl]
        | ok mr => simp [verifyFaceOnRecord, hl]

/-- C3 counterexample: a reachable record whose document step threw
(status failed, documentData null) still gets a faceMatchResult stored
by verifyFace once liveness passes — refuting "no execution of
verifyFace stores a faceMatchResult on a record whose documentData is
null or whose document step failed". -/
theorem claim3_faceMatch_stored_without_documentData :
    (findOne docFailedStore "v1").map Verification.documentData = some none ∧
    (findOne docFailedStore "v1").map Verification.status = some (.failed) ∧
    (findOne (verifyFaceOp docFailedStore "v1" (.ok liveOutcome)
        (.ok matchedOutcome)).store "v1").map Verification.faceMatchResult =
      some (some matchedOutcome) ∧
    (findOne (verifyFaceOp docFailedStore "v1" (.ok liveOutcome)
        (.ok matchedOutcome)).store "v1").map Verification.documentData = some none :=
  ⟨by decide, by decide, by decide, by decide⟩

/-- C8 (amended): on an absent verification id both verifyFace and
getVerificationStatus throw a `BadRequestException` with message
"Verification not found" — the same exception class the service uses
for validation failures, not a distinct not-found kind — and leave the
store untouched; on a present id getVerificationStatus returns the
current record and the unchanged store. -/
theorem claim8_not_found_behaviour :
    (∀ (s : Store) (id : String) (liveness : Except VError LivenessOutcome)
        (femMatch : Except VError MatchOutcome), findOne s id = none →
        verifyFaceOp s id liveness femMatch =
          ⟨s, .error ⟨.badRequestException, "Verification not found"⟩, false⟩) ∧
    (∀ (s : Store) (id : String), findOne s id = none →
        getVerificationStatus s id =
          ⟨s, .error ⟨.badRequestException, "Verification not found"⟩⟩) ∧
    (∀ (s : Store) (id : String) (v : Verification), findOne s id = some v →
        getVerificationStatus s id = ⟨s, .ok v⟩) := by
  refine ⟨?_, ?_, ?_⟩
  · intro s id l m h
    unfold verifyFaceOp
    rw [h]
  · intro s id h
    unfold getVerificationStatus
    rw [h]
  · intro s id v h
    unfold getVerificationStatus
    rw [h]

/-- claim8 witness: concrete not-found and found lookups. -/
theorem claim8_not_found_behaviour_witness :
    verifyFaceOp [] "missing" (.ok liveOutcome) (.ok matchedOutcome) =
      ⟨[], .error ⟨.badRequestException, "Verification not found"⟩, false⟩ ∧
    getVerificationStatus [] "missing" =
      ⟨[], .error ⟨.badRequestException, "Verification not found"⟩⟩ ∧
    getVerificationStatus [vFailedRecord] "v1" = ⟨[vFailedRecord], .ok vFailedRecord⟩ :=
  ⟨claim8_not_found_behaviour.1 [] "missing" (.ok liveOutcome) (.ok matchedOutcome) rfl,
   claim8_not_found_behaviour.2.1 [] "missing" rfl,
   claim8_not_found_behaviour.2.2 [vFailedRecord] "v1" vFailedRecord (by decide)⟩

/-- C8 counterexample: the not-found error carries the same exception
class (`BadRequestException`) as a validation failure such as
"Document verification failed"; it is not an error kind distinct from
the validation errors (the available distinct class,
`NotFoundException`, is never used). -/
theorem claim8_not_found_same_error_class :
    (getVerificationStatus [] "missing").result =
      .error ⟨.badRequestException, "Verification not found"⟩ ∧
    (verifyFaceOp [] "missing" (.ok liveOutcome) (.ok matchedOutcome)).result =
      .error ⟨.badRequestException, "Verification not found"⟩ ∧
    (startVerification "v1" "user1" .passport (.ok ⟨false, [], 0⟩)).result =
      .error ⟨.badRequestException, "Document verification failed"⟩ ∧
    (VError.mk .badRequestException "Verification not found").cls =
      (VError.mk .badRequestException "Document verification failed").cls ∧
    ExceptionClass.badRequestException ≠ ExceptionClass.notFoundException :=
  ⟨by decide, by decide, by decide, rfl, by decide⟩

/-- C9: whenever the liveness check returns not-live, verifyFace marks
the record failed with reason "Liveness check failed", persists exactly
that record (twice: once in the try block, once in the catch),
surfaces the matching error, and never invokes the pairwise
face-comparison call. -/
theorem claim9_liveness_failure_no_face_match :
    ∀ (v : Verification) (l : LivenessOutcome) (femMatch : Except VError MatchOutcome),
      l.isLive = false →
      (verifyFaceOnRecord v (.ok l) femMatch).record.status = .failed ∧
      (verifyFaceOnRecord v (.ok l) femMatch).record.failureReason =
        some "Liveness check failed" ∧
      (verifyFaceOnRecord v (.ok l) femMatch).saves =
        [(verifyFaceOnRecord v (.ok l) femMatch).record,
         (verifyFaceOnRecord v (.ok l) femMatch).record] ∧
      (verifyFaceOnRecord v (.ok l) femMatch).result =
        .error ⟨.badRequestException, "Liveness check failed"⟩ ∧
      (verifyFaceOnRecord v (.ok l) femMatch).faceMatchCalled = false := by
  intro v l m hl
  simp [verifyFaceOnRecord, hl]

/-- claim9 witness: a concrete not-live result on an in-progress
record. -/
theorem claim9_liveness_failure_no_face_match_witness :
    (verifyFaceOnRecord vInProgressRecord (.ok notLiveOutcome)
        (.ok matchedOutcome)).record.status = .failed ∧
    (verifyFaceOnRecord vInProgressRecord (.ok notLiveOutcome)
        (.ok matchedOutcome)).record.failureReason = some "Liveness check failed" ∧
    (verifyFaceOnRecord vInProgressRecord (.ok notLiveOutcome)
        (.ok matchedOutcome)).saves =
      [(verifyFaceOnRecord vInProgressRecord (.ok notLiveOutcome)
          (.ok matchedOutcome)).record,
       (verifyFaceOnRecord vInProgressRecord (.ok notLiveOutcome)
          (.ok matchedOutcome)).record] ∧
    (verifyFaceOnRecord vInProgressRecord (.ok notLiveOutcome)
        (.ok matchedOutcome)).result =
      .error ⟨.badRequestException, "Liveness check failed"⟩ ∧
    (verifyFaceOnRecord vInProgressRecord (.ok notLiveOutcome)
        (.ok matchedOutcome)).faceMatchCalled = false :=
  claim9_liveness_failure_no_face_match vInProgressRecord notLiveOutcome
    (.ok matchedOutcome) rfl

end IdentityVerification
